import Mathlib

/-!
Shallow embedding of the WHOIS client core (Akaere-NetWorks/whois) in Lean 4.

The embedding follows the Rust source modules:
  * `servers.rs`  — well-known servers, `ServerSelector::select_server`,
    `ServerSelector::extract_whois_server`;
  * `protocol.rs` — `ServerCapabilities`, capability parsing, enhanced-query
    building, scheme selection, `is_server_colored`, and the network-facing
    probe and query of `WhoisColorProtocol`;
  * `query.rs`    — `is_empty_result`, `QueryResult`, and the `WhoisQuery`
    pipeline including the IANA referral and the RADB fallback.

The Rust string primitives (`trim`, `lines`, `split_whitespace`,
`starts_with`, `contains`, `to_lowercase`, `split`, `join`, byte `len`,
`strip_prefix`) are translated as structurally recursive functions on the
character list of a `String`, so that every definition evaluates inside the
kernel.  Rust's Unicode-aware case maps and whitespace classes agree with
the ASCII ones used here on the ASCII data these functions handle; byte
lengths are computed from the UTF-8 size of each character.

Network I/O is modelled by an explicit oracle (`Net`): for every server
address and written payload it tells whether the TCP connect succeeds,
whether the write succeeds, and what the subsequent read-to-end returns
(`none` standing for a read error or timeout).  Setting the socket timeouts
is modelled as always succeeding (`connectOk` covers establishing and
configuring the connection).  The environment variable lookup of
`ServerSelector::from_env` is passed in as an explicit `Option String`
parameter.  `verbose` parameters only produce diagnostic prints in the Rust
code and are dropped.
-/

namespace Whois

/-! String primitives, all structurally recursive. -/

/-- The WHOIS line terminator CRLF. -/
def crlf : String := "\r\n"

/-- Is the string empty (Rust `str::is_empty`)? -/
def strIsEmpty (s : String) : Bool :=
  s.data.isEmpty

/-- Rust `str::trim` on a character list: drop whitespace from both ends. -/
def trimData (l : List Char) : List Char :=
  ((l.dropWhile Char.isWhitespace).reverse.dropWhile Char.isWhitespace).reverse

/-- Rust `str::trim`. -/
def strTrim (s : String) : String :=
  String.mk (trimData s.data)

/-- Rust `str::to_lowercase` (ASCII case map). -/
def strToLower (s : String) : String :=
  String.mk (s.data.map Char.toLower)

/-- Rust `str::to_uppercase` (ASCII case map). -/
def strToUpper (s : String) : String :=
  String.mk (s.data.map Char.toUpper)

/-- Rust `str::starts_with`. -/
def strStartsWith (s p : String) : Bool :=
  p.data.isPrefixOf s.data

/-- Split a character list at every character satisfying `p`; the result
always has one more piece than there are split points (so the empty list
yields one empty piece), matching Rust `str::split`. -/
def splitOnPredData (p : Char → Bool) : List Char → List (List Char)
  | [] => [[]]
  | c :: cs =>
    let r := splitOnPredData p cs
    if p c then [] :: r
    else
      match r with
      | h :: t => (c :: h) :: t
      | [] => [[c]]

/-- Rust `str::split(sep)` for a one-character separator. -/
def splitOnCharData (sep : Char) (l : List Char) : List (List Char) :=
  splitOnPredData (fun c => c = sep) l

/-- Rust `str::lines` on a character list: split at `\n`; a piece that was
terminated by the `\n` loses one trailing `\r`; a trailing line ending
yields no extra empty line, and the empty string has no lines. -/
def rustLinesData (l : List Char) : List (List Char) :=
  match l with
  | [] => []
  | _ =>
    let stripCR := fun (p : List Char) =>
      if p.getLast? = some '\r' then p.dropLast else p
    let ps := splitOnCharData '\n' l
    if l.getLast? = some '\n' then ps.dropLast.map stripCR
    else ps.dropLast.map stripCR ++ [ps.getLastD []]

/-- Rust `str::lines`. -/
def rustLines (s : String) : List String :=
  (rustLinesData s.data).map String.mk

/-- Rust `str::split_whitespace`: the non-empty pieces between runs of
whitespace. -/
def splitWS (s : String) : List String :=
  ((splitOnPredData Char.isWhitespace s.data).filter
    (fun p => !p.isEmpty)).map String.mk

/-- Does `p` occur as a contiguous sublist of the second argument? -/
def listIsInfixOf (p : List Char) : List Char → Bool
  | [] => p.isEmpty
  | c :: cs => p.isPrefixOf (c :: cs) || listIsInfixOf p cs

/-- Rust `str::contains pat` for a string pattern. -/
def containsStr (s pat : String) : Bool :=
  listIsInfixOf pat.data s.data

/-- Character-list core of Rust `str::strip_prefix`. -/
def dropPre : List Char → List Char → Option (List Char)
  | [], s => some s
  | _ :: _, [] => none
  | p :: ps, c :: cs => if p = c then dropPre ps cs else none

/-- Rust `str::strip_prefix p s`: `some` of the remainder when `p` is a
prefix of `s`, else `none`. -/
def rustStripPre (p s : String) : Option String :=
  (dropPre p.data s.data).map String.mk

/-- UTF-8 byte size of one character, as Rust `char::len_utf8`. -/
def charUtf8Size (c : Char) : Nat :=
  if c.toNat < 0x80 then 1
  else if c.toNat < 0x800 then 2
  else if c.toNat < 0x10000 then 3
  else 4

/-- Rust `str::len`: the UTF-8 byte length. -/
def utf8Len (s : String) : Nat :=
  s.data.foldl (fun n c => n + charUtf8Size c) 0

/-- Rust `[String]::join(sep)` on character lists. -/
def joinWithData (sep : List Char) : List (List Char) → List Char
  | [] => []
  | [x] => x
  | x :: y :: t => x ++ sep ++ joinWithData sep (y :: t)

/-- Rust `[String]::join(sep)`. -/
def joinWith (sep : String) (xs : List String) : String :=
  String.mk (joinWithData sep.data (xs.map String.data))

/-! Embedding of servers.rs. -/

def IANA_WHOIS_SERVER : String := "whois.iana.org"

def DEFAULT_WHOIS_SERVER : String := "whois.ripe.net"

def DEFAULT_WHOIS_PORT : Nat := 43

def DN42_WHOIS_SERVER : String := "lantian.pub"

def DN42_WHOIS_PORT : Nat := 43

def BGPTOOLS_WHOIS_SERVER : String := "bgp.tools"

def BGPTOOLS_WHOIS_PORT : Nat := 43

def RADB_WHOIS_SERVER : String := "whois.radb.net"

def RADB_WHOIS_PORT : Nat := 43

/-- A WHOIS server endpoint (servers.rs). -/
structure WhoisServer where
  host : String
  port : Nat
  name : String
  deriving Repr, DecidableEq

def WhoisServer.new (host : String) (port : Nat) (name : String) : WhoisServer :=
  ⟨host, port, name⟩

def WhoisServer.iana : WhoisServer :=
  WhoisServer.new IANA_WHOIS_SERVER DEFAULT_WHOIS_PORT "IANA"

def WhoisServer.default : WhoisServer :=
  WhoisServer.new DEFAULT_WHOIS_SERVER DEFAULT_WHOIS_PORT "RIPE"

def WhoisServer.dn42 : WhoisServer :=
  WhoisServer.new DN42_WHOIS_SERVER DN42_WHOIS_PORT "DN42"

def WhoisServer.bgptools : WhoisServer :=
  WhoisServer.new BGPTOOLS_WHOIS_SERVER BGPTOOLS_WHOIS_PORT "BGP.tools"

def WhoisServer.radb : WhoisServer :=
  WhoisServer.new RADB_WHOIS_SERVER RADB_WHOIS_PORT "RADB"

def WhoisServer.custom (host : String) (port : Nat) : WhoisServer :=
  WhoisServer.new host port "Custom"

/-- The `host:port` address string.  Port numbers in this program are
written in decimal by `format!`. -/
def WhoisServer.address (s : WhoisServer) : String :=
  s.host ++ ":" ++ String.mk (Nat.toDigits 10 s.port)

namespace ServerSelector

/-- Line scan of `ServerSelector::extract_whois_server`.  On the first
trimmed line that starts with `whois:` (or, checked second, `refer:`) the
function returns the second whitespace token of that line; `.nth(1)?` makes
a missing token abort the whole scan with `none`. -/
def extract_whois_server_lines : List String → Option String
  | [] => none
  | l :: ls =>
    let line := strTrim l
    if strStartsWith line "whois:" then
      ((splitWS line).get? 1).map strTrim
    else if strStartsWith line "refer:" then
      ((splitWS line).get? 1).map strTrim
    else
      extract_whois_server_lines ls

/-- Embeds `ServerSelector::extract_whois_server`. -/
def extract_whois_server (response : String) : Option String :=
  extract_whois_server_lines (rustLines response)

/-- Embeds `ServerSelector::select_server`.  The `WHOIS_SERVER` environment
lookup of `from_env` is the explicit `env` argument. -/
def select_server (env : Option String) (domain : String)
    (use_dn42 : Bool) (use_bgptools : Bool)
    (explicit_server : Option String) (port : Nat) : WhoisServer :=
  if use_dn42 || strStartsWith (strToUpper domain) "AS42424" then
    WhoisServer.dn42
  else if use_bgptools then
    WhoisServer.bgptools
  else
    match explicit_server with
    | some server => WhoisServer.custom server port
    | none =>
      match env with
      | some env_server => WhoisServer.custom env_server port
      | none => WhoisServer.iana

end ServerSelector

/-! Embedding of protocol.rs: capability data and pure helpers. -/

/-- Negotiated server capability information (protocol.rs). -/
structure ServerCapabilities where
  supports_color : Bool
  color_schemes : List String
  protocol_version : String
  supports_markdown : Bool
  supports_images : Bool
  image_formats : List String
  deriving Repr, DecidableEq

/-- The `Default for ServerCapabilities` value: the no-support capabilities. -/
def ServerCapabilities.default : ServerCapabilities :=
  { supports_color := false
    color_schemes := []
    protocol_version := "none"
    supports_markdown := false
    supports_images := false
    image_formats := [] }

def CAPABILITY_PROBE : String := "X-WHOIS-COLOR-PROBE: v1.1\r\n"

def COLOR_REQUEST_HEADER : String := "X-WHOIS-COLOR: "

def MARKDOWN_REQUEST_HEADER : String := "X-WHOIS-MARKDOWN: "

def IMAGE_REQUEST_HEADER : String := "X-WHOIS-IMAGES: "

def CAPABILITY_RESPONSE_HEADER : String := "X-WHOIS-COLOR-SUPPORT: "

namespace WhoisColorProtocol

/-- Rust `split(',').map(trim).filter(non-empty)` used for the `schemes=`
and `images=` values. -/
def parseCommaList (s : String) : List String :=
  (((splitOnCharData ',' s.data).map (fun p => String.mk (trimData p))).filter
    (fun x => !strIsEmpty x))

/-- One step of the parameter loop in
`WhoisColorProtocol::parse_capability_line`. -/
def parse_capability_token (caps : ServerCapabilities) (part : String) :
    ServerCapabilities :=
  match rustStripPre "schemes=" part with
  | some schemes_part => { caps with color_schemes := parseCommaList schemes_part }
  | none =>
    match rustStripPre "markdown=" part with
    | some markdown_part => { caps with supports_markdown := markdown_part == "true" }
    | none =>
      match rustStripPre "images=" part with
      | some images_part =>
        { caps with supports_images := !strIsEmpty images_part
                    image_formats := parseCommaList images_part }
      | none => caps

/-- Embeds `WhoisColorProtocol::parse_capability_line`. -/
def parse_capability_line (capability_data : String) : ServerCapabilities :=
  match splitWS capability_data with
  | [] => ServerCapabilities.default
  | version :: rest =>
    rest.foldl parse_capability_token
      { supports_color := true
        protocol_version := version
        color_schemes := []
        supports_markdown := false
        supports_images := false
        image_formats := [] }

/-- Line scan of `WhoisColorProtocol::parse_capability_response`: the first
trimmed line starting with the capability-response prefix is parsed (the
prefix removed); if none is found the default capabilities are returned. -/
def parse_capability_response_lines : List String → ServerCapabilities
  | [] => ServerCapabilities.default
  | l :: ls =>
    match rustStripPre CAPABILITY_RESPONSE_HEADER (strTrim l) with
    | some rest => parse_capability_line rest
    | none => parse_capability_response_lines ls

/-- Embeds `WhoisColorProtocol::parse_capability_response`. -/
def parse_capability_response (response : String) : ServerCapabilities :=
  parse_capability_response_lines (rustLines response)

/-- Embeds `WhoisColorProtocol::select_color_scheme`. -/
def select_color_scheme (capabilities : ServerCapabilities)
    (preferred_scheme : Option String) : Option String :=
  if !capabilities.supports_color then
    none
  else
    match preferred_scheme with
    | some preferred =>
      if capabilities.color_schemes.contains preferred then some preferred
      else capabilities.color_schemes.head?
    | none => capabilities.color_schemes.head?

/-- Embeds `WhoisColorProtocol::build_enhanced_query`. -/
def build_enhanced_query (query : String) (capabilities : ServerCapabilities)
    (preferred_scheme : Option String)
    (enable_markdown : Bool) (enable_images : Bool) : String :=
  let headers := ""
  let headers :=
    if capabilities.supports_color then
      match select_color_scheme capabilities preferred_scheme with
      | some scheme => headers ++ COLOR_REQUEST_HEADER ++ "scheme=" ++ scheme ++ crlf
      | none => headers
    else headers
  let headers :=
    if capabilities.supports_markdown && enable_markdown then
      headers ++ MARKDOWN_REQUEST_HEADER ++ "true" ++ crlf
    else headers
  let headers :=
    if capabilities.supports_images && enable_images &&
        !capabilities.image_formats.isEmpty then
      headers ++ IMAGE_REQUEST_HEADER ++ joinWith "," capabilities.image_formats ++ crlf
    else headers
  if strIsEmpty headers then query ++ crlf
  else headers ++ query ++ crlf

/-- Embeds `WhoisColorProtocol::is_server_colored`. -/
def is_server_colored (response : String) : Bool :=
  containsStr response "\x1b[" || containsStr response "X-WHOIS-COLOR-APPLIED:"

end WhoisColorProtocol

/-! Network model.

One TCP exchange of this client is: connect to an address, write one
payload, read to end-of-stream.  `Net` records, per address and payload,
whether each stage succeeds; `readResp a p = none` models a read error or
a read timeout. -/

structure Net where
  connectOk : String → Bool
  writeOk : String → String → Bool
  readResp : String → String → Option String

namespace WhoisColorProtocol

/-- Embeds `WhoisColorProtocol::probe_capabilities`: a failed connect is an
error, but a failed write or a failed/timed-out read yields the default
capabilities. -/
def probe_capabilities (net : Net) (server_address : String) :
    Except Unit ServerCapabilities :=
  if !net.connectOk server_address then
    Except.error ()
  else
    let probe_query := CAPABILITY_PROBE ++ crlf
    if !net.writeOk server_address probe_query then
      Except.ok ServerCapabilities.default
    else
      match net.readResp server_address probe_query with
      | some response => Except.ok (parse_capability_response response)
      | none => Except.ok ServerCapabilities.default

/-- Embeds `WhoisColorProtocol::query_with_enhanced_protocol` (the
transport-level query of protocol.rs): any stage failure is an error. -/
def query_enhanced (net : Net) (server_address : String) (query : String)
    (capabilities : ServerCapabilities) (preferred_scheme : Option String)
    (enable_markdown : Bool) (enable_images : Bool) : Except Unit String :=
  if !net.connectOk server_address then
    Except.error ()
  else
    let query_string :=
      if capabilities.supports_color || capabilities.supports_markdown ||
          capabilities.supports_images then
        build_enhanced_query query capabilities preferred_scheme
          enable_markdown enable_images
      else
        query ++ crlf
    if !net.writeOk server_address query_string then
      Except.error ()
    else
      match net.readResp server_address query_string with
      | some response => Except.ok response
      | none => Except.error ()

end WhoisColorProtocol

/-! Embedding of query.rs. -/

def EMPTY_INDICATORS : List String :=
  [ "no found"
  , "no match"
  , "not found"
  , "no data found"
  , "no entries found"
  , "no records found"
  , "no such domain"
  , "no whois server is known"
  , "object does not exist"
  , "%error: no objects found"
  , "% no objects found" ]

/-- The non-comment content lines of a (pre-trimmed) response: every line
is trimmed, blank lines and lines starting with `%` or `#` are dropped. -/
def content_lines_of (response : String) : List String :=
  (((rustLines response).map strTrim).filter
      (fun line => !strIsEmpty line)).filter
    (fun line => !strStartsWith line "%" && !strStartsWith line "#")

/-- Embeds `query.rs::is_empty_result`. -/
def is_empty_result (response : String) : Bool :=
  let response := strTrim response
  if strIsEmpty response then true
  else
    let response_lower := strToLower response
    if EMPTY_INDICATORS.any (fun ind => containsStr response_lower ind) then true
    else
      let content_lines := content_lines_of response
      if content_lines.isEmpty then true
      else if utf8Len response < 30 &&
          utf8Len (joinWith " " content_lines) < 10 then true
      else false

/-- The result record `query.rs::QueryResult`. -/
structure QueryResult where
  response : String
  server_used : WhoisServer
  server_colored : Bool
  deriving Repr, DecidableEq

def QueryResult.new (response : String) (server_used : WhoisServer) : QueryResult :=
  { response := response, server_used := server_used, server_colored := false }

def QueryResult.new_with_color (response : String) (server_used : WhoisServer)
    (server_colored : Bool) : QueryResult :=
  { response := response, server_used := server_used, server_colored := server_colored }

namespace WhoisQuery

/-- Embeds `WhoisQuery::query_direct`: connect, write `query ++ CRLF`, read
to end; every stage failure is an error. -/
def query_direct (net : Net) (query : String) (server : WhoisServer) :
    Except Unit String :=
  let address := server.address
  if !net.connectOk address then
    Except.error ()
  else
    let query_string := query ++ crlf
    if !net.writeOk address query_string then
      Except.error ()
    else
      match net.readResp address query_string with
      | some response => Except.ok response
      | none => Except.error ()

/-- Embeds `WhoisQuery::query_with_referral`. -/
def query_with_referral (net : Net) (query : String)
    (initial_server : WhoisServer) : Except Unit QueryResult :=
  if initial_server.name = "IANA" then
    match query_direct net query initial_server with
    | Except.error e => Except.error e
    | Except.ok iana_response =>
      let whois_server_host :=
        (ServerSelector.extract_whois_server iana_response).getD DEFAULT_WHOIS_SERVER
      let final_server := WhoisServer.custom whois_server_host initial_server.port
      match query_direct net query final_server with
      | Except.error e => Except.error e
      | Except.ok final_response => Except.ok (QueryResult.new final_response final_server)
  else
    match query_direct net query initial_server with
    | Except.error e => Except.error e
    | Except.ok response => Except.ok (QueryResult.new response initial_server)

/-- The `probe_capabilities(..).unwrap_or_default()` step of
`WhoisQuery::try_enhanced_protocol_query`. -/
def probed_capabilities_used (net : Net) (server_address : String) :
    ServerCapabilities :=
  match WhoisColorProtocol.probe_capabilities net server_address with
  | Except.ok capabilities => capabilities
  | Except.error _ => ServerCapabilities.default

/-- Embeds `WhoisQuery::try_enhanced_protocol_query`. -/
def try_enhanced_protocol_query (net : Net) (domain : String)
    (server : WhoisServer) (preferred_color_scheme : Option String)
    (enable_markdown : Bool) (enable_images : Bool) : Except Unit QueryResult :=
  let capabilities := probed_capabilities_used net server.address
  match WhoisColorProtocol.query_enhanced net server.address domain
      capabilities preferred_color_scheme enable_markdown enable_images with
  | Except.error e => Except.error e
  | Except.ok response =>
    let server_colored := WhoisColorProtocol.is_server_colored response
    Except.ok (QueryResult.new_with_color response server server_colored)

/-- Embeds `WhoisQuery::query_with_enhanced_protocol_impl`. -/
def query_with_enhanced_protocol_impl (net : Net) (domain : String)
    (server : WhoisServer) (preferred_color_scheme : Option String)
    (enable_markdown : Bool) (enable_images : Bool) : Except Unit QueryResult :=
  if server.name = "IANA" then
    match query_direct net domain server with
    | Except.error e => Except.error e
    | Except.ok iana_response =>
      let whois_server_host :=
        (ServerSelector.extract_whois_server iana_response).getD DEFAULT_WHOIS_SERVER
      let final_server := WhoisServer.custom whois_server_host server.port
      try_enhanced_protocol_query net domain final_server preferred_color_scheme
        enable_markdown enable_images
  else
    try_enhanced_protocol_query net domain server preferred_color_scheme
      enable_markdown enable_images

/-- Embeds `WhoisQuery::try_radb_fallback`. -/
def try_radb_fallback (net : Net) (domain : String)
    (use_server_color : Bool) (enable_markdown : Bool) (enable_images : Bool)
    (preferred_color_scheme : Option String) : Except Unit QueryResult :=
  let radb_server := WhoisServer.radb
  if use_server_color || enable_markdown || enable_images then
    query_with_enhanced_protocol_impl net domain radb_server
      preferred_color_scheme enable_markdown enable_images
  else
    match query_direct net domain radb_server with
    | Except.error e => Except.error e
    | Except.ok response => Except.ok (QueryResult.new response radb_server)

/-- Embeds `WhoisQuery::query`, the plain pipeline. -/
def query (net : Net) (env : Option String) (domain : String)
    (use_dn42 : Bool) (use_bgptools : Bool)
    (explicit_server : Option String) (port : Nat) : Except Unit QueryResult :=
  let server := ServerSelector.select_server env domain use_dn42 use_bgptools
    explicit_server port
  match query_with_referral net domain server with
  | Except.error e => Except.error e
  | Except.ok result =>
    if is_empty_result result.response && !use_dn42 && !use_bgptools &&
        explicit_server.isNone && server.name != "RADB" then
      try_radb_fallback net domain false false false none
    else
      Except.ok result

/-- Embeds `WhoisQuery::query_with_enhanced_protocol`. -/
def query_with_enhanced_protocol (net : Net) (env : Option String)
    (domain : String) (use_dn42 : Bool) (use_bgptools : Bool)
    (use_server_color : Bool) (enable_markdown : Bool) (enable_images : Bool)
    (explicit_server : Option String) (port : Nat)
    (preferred_color_scheme : Option String) : Except Unit QueryResult :=
  let server := ServerSelector.select_server env domain use_dn42 use_bgptools
    explicit_server port
  match
    if use_server_color || enable_markdown || enable_images then
      query_with_enhanced_protocol_impl net domain server
        preferred_color_scheme enable_markdown enable_images
    else
      query_with_referral net domain server
  with
  | Except.error e => Except.error e
  | Except.ok result =>
    if is_empty_result result.response && !use_dn42 && !use_bgptools &&
        explicit_server.isNone && server.name != "RADB" then
      try_radb_fallback net domain use_server_color enable_markdown enable_images
        preferred_color_scheme
    else
      Except.ok result

end WhoisQuery

/-! Statement-side definitions.  The three header strings below follow the
spec's description of the extension headers, for comparison with
`build_enhanced_query` (which is translated from the source). -/

namespace WhoisColorProtocol

/-- The color header line of the spec: present exactly when the server
supports color and a scheme is selected. -/
def specColorHeader (capabilities : ServerCapabilities)
    (preferred_scheme : Option String) : String :=
  if capabilities.supports_color then
    match select_color_scheme capabilities preferred_scheme with
    | some scheme => COLOR_REQUEST_HEADER ++ "scheme=" ++ scheme ++ crlf
    | none => ""
  else ""

/-- The Markdown header line of the spec: present exactly when the server
supports Markdown and the caller asked for it; its value is the literal
`true`. -/
def specMarkdownHeader (capabilities : ServerCapabilities)
    (enable_markdown : Bool) : String :=
  if capabilities.supports_markdown && enable_markdown then
    MARKDOWN_REQUEST_HEADER ++ "true" ++ crlf
  else ""

/-- The images header line of the spec: present exactly when the server
supports images, the caller asked for them, and the server advertised a
non-empty format list; its value is that list rejoined with commas. -/
def specImagesHeader (capabilities : ServerCapabilities)
    (enable_images : Bool) : String :=
  if capabilities.supports_images && enable_images &&
      !capabilities.image_formats.isEmpty then
    IMAGE_REQUEST_HEADER ++ joinWith "," capabilities.image_formats ++ crlf
  else ""

end WhoisColorProtocol

/-! Concrete networks used to witness the pipeline theorems. -/

/-- A network on which every connection attempt fails. -/
def netDown : Net :=
  { connectOk := fun _ => false
    writeOk := fun _ _ => false
    readResp := fun _ _ => none }

/-- A network where IANA refers to `whois.example.net` and every other
server answers with a fixed record. -/
def netReferral : Net :=
  { connectOk := fun _ => true
    writeOk := fun _ _ => true
    readResp := fun a _ =>
      if a = "whois.iana.org:43" then some "whois:   whois.example.net\n"
      else some "domain:         example.com\ndescr:          Example Domain\nsource:         RIPE" }

/-- A network where IANA refers to `whois.nic.x`, that registry answers
with a no-match response, and RADB answers with a record. -/
def netFallback : Net :=
  { connectOk := fun _ => true
    writeOk := fun _ _ => true
    readResp := fun a _ =>
      if a = "whois.iana.org:43" then some "whois: whois.nic.x\n"
      else if a = "whois.nic.x:43" then some "No match for domain."
      else if a = "whois.radb.net:43" then
        some "route:          193.0.0.0/21\norigin:         AS3333\nsource:         RADB"
      else some "?" }

end Whois

namespace Whois

/-! Helper lemmas (shared, not tied to a single claim). -/

theorem dropPre_append (p rest : List Char) : dropPre p (p ++ rest) = some rest := by
  induction p with
  | nil => rfl
  | cons c cs ih => simp [dropPre, ih]

theorem rustStripPre_append (p rest : String) :
    rustStripPre p (p ++ rest) = some rest := by
  have h : (p ++ rest).data = p.data ++ rest.data := String.data_append p rest
  simp [rustStripPre, h, dropPre_append]

theorem string_append_assoc (a b c : String) : a ++ b ++ c = a ++ (b ++ c) := by
  apply String.ext
  simp [String.data_append, List.append_assoc]

theorem string_empty_append (s : String) : "" ++ s = s := by
  apply String.ext
  simp [String.data_append]

theorem string_append_empty (s : String) : s ++ "" = s := by
  apply String.ext
  simp [String.data_append]

theorem strIsEmpty_append_crlf (a : String) : strIsEmpty (a ++ crlf) = false := by
  unfold strIsEmpty
  rw [String.data_append]
  cases h : a.data <;> rfl

theorem strIsEmpty_iff (s : String) : strIsEmpty s = true ↔ s = "" := by
  cases s with
  | mk d =>
    simp only [strIsEmpty, List.isEmpty_iff]
    constructor
    · intro h
      rw [h]
    · intro h
      have h2 := congrArg String.data h
      simpa using h2

theorem rustStripPre_schemes_markdown (s : String) :
    rustStripPre "schemes=" ("markdown=" ++ s) = none := by
  have hs : ("markdown=" ++ s).data = 'm' :: ("arkdown=".data ++ s.data) := by
    rw [String.data_append]; rfl
  have hp : "schemes=".data = 's' :: "chemes=".data := rfl
  simp [rustStripPre, hp, hs, dropPre]

theorem rustStripPre_schemes_images (s : String) :
    rustStripPre "schemes=" ("images=" ++ s) = none := by
  have hs : ("images=" ++ s).data = 'i' :: ("mages=".data ++ s.data) := by
    rw [String.data_append]; rfl
  have hp : "schemes=".data = 's' :: "chemes=".data := rfl
  simp [rustStripPre, hp, hs, dropPre]

theorem rustStripPre_markdown_images (s : String) :
    rustStripPre "markdown=" ("images=" ++ s) = none := by
  have hs : ("images=" ++ s).data = 'i' :: ("mages=".data ++ s.data) := by
    rw [String.data_append]; rfl
  have hp : "markdown=".data = 'm' :: "arkdown=".data := rfl
  simp [rustStripPre, hp, hs, dropPre]

open WhoisColorProtocol in
/-- Decomposition of `build_enhanced_query` into the three spec-described
header components followed by the target line. -/
theorem build_enhanced_query_components (q : String) (caps : ServerCapabilities)
    (pref : Option String) (md img : Bool) :
    build_enhanced_query q caps pref md img =
      specColorHeader caps pref ++
        (specMarkdownHeader caps md ++ (specImagesHeader caps img ++ (q ++ crlf))) := by
  unfold build_enhanced_query specColorHeader specMarkdownHeader specImagesHeader
  cases hc : caps.supports_color with
  | false =>
    cases hm : (caps.supports_markdown && md) with
    | false =>
      cases hi : (caps.supports_images && img && !caps.image_formats.isEmpty) with
      | false => simp [hc, hm, hi, string_empty_append, strIsEmpty]
      | true =>
        simp only [hc, hm, hi, Bool.false_eq_true, if_false, if_true,
          string_empty_append, strIsEmpty_append_crlf]
        simp [string_append_assoc, string_empty_append]
    | true =>
      cases hi : (caps.supports_images && img && !caps.image_formats.isEmpty) with
      | false =>
        simp only [hc, hm, hi, Bool.false_eq_true, if_false, if_true,
          string_empty_append, strIsEmpty_append_crlf]
        simp [string_append_assoc, string_empty_append, string_append_empty]
      | true =>
        simp only [hc, hm, hi, Bool.false_eq_true, if_false, if_true,
          string_empty_append, strIsEmpty_append_crlf]
        simp [string_append_assoc, string_empty_append]
  | true =>
    cases hs : select_color_scheme caps pref with
    | none =>
      cases hm : (caps.supports_markdown && md) with
      | false =>
        cases hi : (caps.supports_images && img && !caps.image_formats.isEmpty) with
        | false => simp [hc, hs, hm, hi, string_empty_append, strIsEmpty]
        | true =>
          simp only [hc, hs, hm, hi, Bool.false_eq_true, if_false, if_true,
            string_empty_append, strIsEmpty_append_crlf]
          simp [string_append_assoc, string_empty_append]
      | true =>
        cases hi : (caps.supports_images && img && !caps.image_formats.isEmpty) with
        | false =>
          simp only [hc, hs, hm, hi, Bool.false_eq_true, if_false, if_true,
            string_empty_append, strIsEmpty_append_crlf]
          simp [string_append_assoc, string_empty_append, string_append_empty]
        | true =>
          simp only [hc, hs, hm, hi, Bool.false_eq_true, if_false, if_true,
            string_empty_append, strIsEmpty_append_crlf]
          simp [string_append_assoc, string_empty_append]
    | some scheme =>
      cases hm : (caps.supports_markdown && md) with
      | false =>
        cases hi : (caps.supports_images && img && !caps.image_formats.isEmpty) with
        | false =>
          simp only [hc, hs, hm, hi, Bool.false_eq_true, if_false, if_true,
            string_empty_append, strIsEmpty_append_crlf]
          simp [string_append_assoc, string_empty_append, string_append_empty]
        | true =>
          simp only [hc, hs, hm, hi, Bool.false_eq_true, if_false, if_true,
            string_empty_append, strIsEmpty_append_crlf]
          simp [string_append_assoc, string_empty_append]
      | true =>
        cases hi : (caps.supports_images && img && !caps.image_formats.isEmpty) with
        | false =>
          simp only [hc, hs, hm, hi, Bool.false_eq_true, if_false, if_true,
            string_empty_append, strIsEmpty_append_crlf]
          simp [string_append_assoc, string_empty_append, string_append_empty]
        | true =>
          simp only [hc, hs, hm, hi, Bool.false_eq_true, if_false, if_true,
            string_empty_append, strIsEmpty_append_crlf]
          simp [string_append_assoc, string_empty_append]

/-- C4: `select_server` is total over all inputs and obeys the priority
order special-mode flag > explicit server > environment override >
root-authority default; a target whose upper-cased form starts with
`AS42424` selects the DN42 mirror regardless of every other argument. -/
theorem select_server_priority (env : Option String) (domain : String)
    (use_dn42 use_bgptools : Bool) (explicit_server : Option String) (port : Nat) :
    (∃ s, ServerSelector.select_server env domain use_dn42 use_bgptools
        explicit_server port = s)
    ∧ (use_dn42 = true →
        ServerSelector.select_server env domain use_dn42 use_bgptools
          explicit_server port = WhoisServer.dn42)
    ∧ (strStartsWith (strToUpper domain) "AS42424" = true →
        ServerSelector.select_server env domain use_dn42 use_bgptools
          explicit_server port = WhoisServer.dn42)
    ∧ (use_dn42 = false → strStartsWith (strToUpper domain) "AS42424" = false →
        use_bgptools = true →
        ServerSelector.select_server env domain use_dn42 use_bgptools
          explicit_server port = WhoisServer.bgptools)
    ∧ (∀ s, use_dn42 = false → strStartsWith (strToUpper domain) "AS42424" = false →
        use_bgptools = false → explicit_server = some s →
        ServerSelector.select_server env domain use_dn42 use_bgptools
          explicit_server port = WhoisServer.custom s port)
    ∧ (∀ e, use_dn42 = false → strStartsWith (strToUpper domain) "AS42424" = false →
        use_bgptools = false → explicit_server = none → env = some e →
        ServerSelector.select_server env domain use_dn42 use_bgptools
          explicit_server port = WhoisServer.custom e port)
    ∧ (use_dn42 = false → strStartsWith (strToUpper domain) "AS42424" = false →
        use_bgptools = false → explicit_server = none → env = none →
        ServerSelector.select_server env domain use_dn42 use_bgptools
          explicit_server port = WhoisServer.iana) := by
  refine ⟨⟨_, rfl⟩, ?_, ?_, ?_, ?_, ?_, ?_⟩ <;>
    intros <;> simp_all [ServerSelector.select_server]

/-- Witness for C4: a target in the DN42 private numbering space selects
the DN42 mirror even though the BGP.tools flag, an explicit server and an
environment override are all set. -/
theorem select_server_priority_witness :
    ServerSelector.select_server (some "env.example") "as42424-router" false true
      (some "explicit.example") 4343 = WhoisServer.dn42 :=
  (select_server_priority (some "env.example") "as42424-router" false true
    (some "explicit.example") 4343).2.2.1 (by decide)

open WhoisColorProtocol in
/-- C5: the built query is the concatenation, in the fixed order color
header, Markdown header, images header, of the extension headers followed
by the CRLF-terminated target; with default (no-support) capabilities it is
the bare target line, and with full v1.1 capabilities and all preferences
the three headers appear in order. -/
theorem build_enhanced_query_spec :
    (∀ q caps pref md img, build_enhanced_query q caps pref md img =
        specColorHeader caps pref ++
          (specMarkdownHeader caps md ++ (specImagesHeader caps img ++ (q ++ crlf))))
    ∧ (∀ q pref md img,
        build_enhanced_query q ServerCapabilities.default pref md img = q ++ crlf)
    ∧ build_enhanced_query "example.com"
        ⟨true, ["ripe"], "v1.1", true, true, ["png", "jpg"]⟩ (some "ripe") true true =
        "X-WHOIS-COLOR: scheme=ripe\r\nX-WHOIS-MARKDOWN: true\r\nX-WHOIS-IMAGES: png,jpg\r\nexample.com\r\n" := by
  refine ⟨build_enhanced_query_components, ?_, ?_⟩
  · intro q pref md img
    rfl
  · rfl

open WhoisColorProtocol in
/-- C7: scheme selection — no scheme without `supports_color`; a preferred
scheme is used exactly when advertised; otherwise the first advertised
scheme if any; a color-capable server advertising zero schemes gets no
scheme and no color header in the built query. -/
theorem select_color_scheme_spec (capabilities : ServerCapabilities)
    (preferred_scheme : Option String) :
    (capabilities.supports_color = false →
      select_color_scheme capabilities preferred_scheme = none)
    ∧ (∀ p, capabilities.supports_color = true → preferred_scheme = some p →
        p ∈ capabilities.color_schemes →
        select_color_scheme capabilities preferred_scheme = some p)
    ∧ (∀ p, capabilities.supports_color = true → preferred_scheme = some p →
        p ∉ capabilities.color_schemes →
        select_color_scheme capabilities preferred_scheme =
          capabilities.color_schemes.head?)
    ∧ (capabilities.supports_color = true → preferred_scheme = none →
        select_color_scheme capabilities preferred_scheme =
          capabilities.color_schemes.head?)
    ∧ (capabilities.supports_color = true → capabilities.color_schemes = [] →
        select_color_scheme capabilities preferred_scheme = none
        ∧ ∀ q md img, build_enhanced_query q capabilities preferred_scheme md img =
            specMarkdownHeader capabilities md ++
              (specImagesHeader capabilities img ++ (q ++ crlf))) := by
  refine ⟨?_, ?_, ?_, ?_, ?_⟩
  · intro h
    simp [select_color_scheme, h]
  · intro p h hp hmem
    simp [select_color_scheme, h, hp, hmem]
  · intro p h hp hmem
    simp [select_color_scheme, h, hp, hmem]
  · intro h hp
    simp [select_color_scheme, h, hp]
  · intro h hz
    have hsel : select_color_scheme capabilities preferred_scheme = none := by
      cases preferred_scheme with
      | none => simp [select_color_scheme, h, hz]
      | some p => simp [select_color_scheme, h, hz]
    refine ⟨hsel, ?_⟩
    intro q md img
    rw [build_enhanced_query_components]
    have hhdr : specColorHeader capabilities preferred_scheme = "" := by
      simp [specColorHeader, h, hsel]
    rw [hhdr, string_empty_append]

open WhoisColorProtocol in
theorem parse_capability_token_preserves (caps : ServerCapabilities) (part : String) :
    (parse_capability_token caps part).protocol_version = caps.protocol_version ∧
    (parse_capability_token caps part).supports_color = caps.supports_color := by
  unfold parse_capability_token
  cases h1 : rustStripPre "schemes=" part with
  | some sp => simp
  | none =>
    cases h2 : rustStripPre "markdown=" part with
    | some mp => simp
    | none =>
      cases h3 : rustStripPre "images=" part with
      | some ip => simp
      | none => simp

open WhoisColorProtocol in
theorem parse_foldl_preserves (l : List String) (caps : ServerCapabilities) :
    (l.foldl parse_capability_token caps).protocol_version = caps.protocol_version ∧
    (l.foldl parse_capability_token caps).supports_color = caps.supports_color := by
  induction l generalizing caps with
  | nil => exact ⟨rfl, rfl⟩
  | cons x xs ih =>
    simp only [List.foldl_cons]
    constructor
    · rw [(ih (parse_capability_token caps x)).1,
        (parse_capability_token_preserves caps x).1]
    · rw [(ih (parse_capability_token caps x)).2,
        (parse_capability_token_preserves caps x).2]

open WhoisColorProtocol in
theorem parse_capability_response_lines_default (ls : List String)
    (h : ∀ l ∈ ls, rustStripPre CAPABILITY_RESPONSE_HEADER (strTrim l) = none) :
    parse_capability_response_lines ls = ServerCapabilities.default := by
  induction ls with
  | nil => rfl
  | cons x xs ih =>
    have hx := h x (by simp)
    simp only [parse_capability_response_lines, hx]
    exact ih (fun l hl => h l (by simp [hl]))

open WhoisColorProtocol in
/-- C6: the documented v1.1 capability line parses to the expected record;
in general the first whitespace token is the protocol version and implies
color support, `schemes=` splits on commas, `markdown=` is true exactly on
the literal `true`, a present non-empty `images=` list implies image
support, unrecognized tokens are ignored, and a response without the
capability prefix yields the default capabilities. -/
theorem parse_capability_spec :
    parse_capability_response
        "X-WHOIS-COLOR-SUPPORT: v1.1 schemes=ripe,bgptools,mtf markdown=true images=png,jpg\r\n" =
      ⟨true, ["ripe", "bgptools", "mtf"], "v1.1", true, true, ["png", "jpg"]⟩
    ∧ (∀ d v rest, splitWS d = v :: rest →
        (parse_capability_line d).protocol_version = v ∧
        (parse_capability_line d).supports_color = true)
    ∧ (∀ caps s, parse_capability_token caps ("schemes=" ++ s) =
        { caps with color_schemes := parseCommaList s })
    ∧ (∀ caps s, parse_capability_token caps ("markdown=" ++ s) =
        { caps with supports_markdown := s == "true" })
    ∧ (∀ caps s, parse_capability_token caps ("images=" ++ s) =
        { caps with supports_images := !strIsEmpty s
                    image_formats := parseCommaList s })
    ∧ (∀ caps t, rustStripPre "schemes=" t = none →
        rustStripPre "markdown=" t = none → rustStripPre "images=" t = none →
        parse_capability_token caps t = caps)
    ∧ (∀ resp, (∀ l ∈ rustLines resp,
          rustStripPre CAPABILITY_RESPONSE_HEADER (strTrim l) = none) →
        parse_capability_response resp = ServerCapabilities.default) := by
  refine ⟨by decide, ?_, ?_, ?_, ?_, ?_, ?_⟩
  · intro d v rest h
    unfold parse_capability_line
    rw [h]
    exact ⟨(parse_foldl_preserves rest _).1, (parse_foldl_preserves rest _).2⟩
  · intro caps s
    simp [parse_capability_token, rustStripPre_append]
  · intro caps s
    simp [parse_capability_token, rustStripPre_schemes_markdown, rustStripPre_append]
  · intro caps s
    simp [parse_capability_token, rustStripPre_schemes_images,
      rustStripPre_markdown_images, rustStripPre_append]
  · intro caps t h1 h2 h3
    simp [parse_capability_token, h1, h2, h3]
  · intro resp h
    exact parse_capability_response_lines_default _ (fun l hl => h l hl)

open WhoisColorProtocol in
/-- Witness for C6: a plain WHOIS response without the capability prefix
parses to the default capabilities. -/
theorem parse_capability_spec_witness :
    parse_capability_response "Some other response\r\n" = ServerCapabilities.default :=
  parse_capability_spec.2.2.2.2.2.2 "Some other response\r\n" (by decide)

/-- C8: `is_empty_result` holds exactly when the trimmed text is empty, or
one of the fixed no-data phrases occurs case-insensitively, or no content
line survives comment and blank stripping, or the trimmed text is shorter
than 30 bytes and its joined content shorter than 10 bytes; a response
whose every line is blank or a `%`/`#` comment is classified empty; the
listed concrete examples classify as the claim says. -/
theorem is_empty_result_spec :
    (∀ t, is_empty_result t = true ↔
      (strTrim t = "" ∨
       (∃ ind ∈ EMPTY_INDICATORS, containsStr (strToLower (strTrim t)) ind = true) ∨
       content_lines_of (strTrim t) = [] ∨
       (utf8Len (strTrim t) < 30 ∧
        utf8Len (joinWith " " (content_lines_of (strTrim t))) < 10)))
    ∧ (∀ t, (∀ l ∈ rustLines (strTrim t),
          strIsEmpty (strTrim l) = true ∨ strStartsWith (strTrim l) "%" = true ∨
            strStartsWith (strTrim l) "#" = true) →
        is_empty_result t = true)
    ∧ is_empty_result "" = true
    ∧ is_empty_result "   " = true
    ∧ is_empty_result "% No objects found" = true
    ∧ is_empty_result "No entries found" = true
    ∧ is_empty_result "% First comment\n# Second comment\n% Third" = true
    ∧ is_empty_result
        "domain:         example.com\ndescr:          Example Domain\nadmin-c:        ADMIN123\nsource:         RIPE" = false := by
  have hiff : ∀ t, is_empty_result t = true ↔
      (strTrim t = "" ∨
       (∃ ind ∈ EMPTY_INDICATORS, containsStr (strToLower (strTrim t)) ind = true) ∨
       content_lines_of (strTrim t) = [] ∨
       (utf8Len (strTrim t) < 30 ∧
        utf8Len (joinWith " " (content_lines_of (strTrim t))) < 10)) := by
    intro t
    by_cases h1 : strTrim t = ""
    · have hb1 : strIsEmpty (strTrim t) = true := (strIsEmpty_iff _).mpr h1
      simp [is_empty_result, hb1, h1]
      exact Or.inl (by decide)
    · have hb1 : strIsEmpty (strTrim t) = false := by
        rw [Bool.eq_false_iff]
        intro hx
        exact h1 ((strIsEmpty_iff _).mp hx)
      by_cases h2 : ∃ ind ∈ EMPTY_INDICATORS,
          containsStr (strToLower (strTrim t)) ind = true
      · have hb2 : EMPTY_INDICATORS.any
            (fun ind => containsStr (strToLower (strTrim t)) ind) = true :=
          List.any_eq_true.mpr h2
        simp [is_empty_result, hb1, hb2, h2]
      · have hb2 : EMPTY_INDICATORS.any
            (fun ind => containsStr (strToLower (strTrim t)) ind) = false := by
          rw [Bool.eq_false_iff]
          intro hx
          exact h2 (List.any_eq_true.mp hx)
        by_cases h3 : content_lines_of (strTrim t) = []
        · have hb3 : (content_lines_of (strTrim t)).isEmpty = true :=
            List.isEmpty_iff.mpr h3
          simp [is_empty_result, hb1, hb2, hb3, h3]
        · have hb3 : (content_lines_of (strTrim t)).isEmpty = false := by
            rw [Bool.eq_false_iff]
            intro hx
            exact h3 (List.isEmpty_iff.mp hx)
          by_cases h4 : utf8Len (strTrim t) < 30 ∧
              utf8Len (joinWith " " (content_lines_of (strTrim t))) < 10
          · simp [is_empty_result, hb1, hb2, hb3, h1, h2, h3, h4, h4.1, h4.2]
          · simp [is_empty_result, hb1, hb2, hb3, h1, h2, h3, h4]
  refine ⟨hiff, ?_, by decide, by decide, by decide, by decide, by decide, by decide⟩
  intro t h
  rw [hiff t]
  right; right; left
  unfold content_lines_of
  rw [List.filter_eq_nil_iff]
  intro a ha
  obtain ⟨hmem, hne⟩ := List.mem_filter.mp ha
  obtain ⟨l, hl, rfl⟩ := List.mem_map.mp hmem
  rcases h l hl with h0 | h0 | h0
  · rw [h0] at hne
    simp at hne
  · simp [h0]
  · simp [h0]

/-- Witness for C8: a response made only of comment lines is classified
empty via the comment-stripping rule. -/
theorem is_empty_result_spec_witness :
    is_empty_result "% only comments here\n# and here" = true :=
  is_empty_result_spec.2.1 "% only comments here\n# and here" (by decide)

open WhoisColorProtocol in
/-- Witness for C7: a server claiming color support but advertising zero
schemes gets no scheme and a query with no color header. -/
theorem select_color_scheme_spec_witness :
    select_color_scheme ⟨true, [], "v1.0", false, false, []⟩ (some "ripe") = none
    ∧ build_enhanced_query "example.com" ⟨true, [], "v1.0", false, false, []⟩
        (some "ripe") true true = "example.com" ++ crlf := by
  have h := (select_color_scheme_spec ⟨true, [], "v1.0", false, false, []⟩
    (some "ripe")).2.2.2.2 rfl rfl
  refine ⟨h.1, ?_⟩
  rw [h.2 "example.com" true true]
  rfl

/-- C1 counterexample: on a network where the TCP connect fails,
`probe_capabilities` returns an error rather than a `ServerCapabilities`
value, so the probe can fail outward from `probe_capabilities` itself. -/
theorem probe_capabilities_connect_failure :
    WhoisColorProtocol.probe_capabilities netDown "whois.ripe.net:43" =
      Except.error () := rfl

/-- C1 amended: write, read and timeout failures during the probe are
converted to the default no-support capabilities inside
`probe_capabilities`, but a connection failure is returned as an error;
the sole caller (`try_enhanced_protocol_query`) applies
`unwrap_or_default`, so every probe failure — connection included — yields
the default capabilities at the call site and no error propagates from the
probe step. -/
theorem probe_capabilities_failure_semantics (net : Net) (addr : String) :
    (net.connectOk addr = false →
      WhoisColorProtocol.probe_capabilities net addr = Except.error ()
      ∧ WhoisQuery.probed_capabilities_used net addr = ServerCapabilities.default)
    ∧ (net.connectOk addr = true →
        net.writeOk addr (CAPABILITY_PROBE ++ crlf) = false →
        WhoisColorProtocol.probe_capabilities net addr =
          Except.ok ServerCapabilities.default)
    ∧ (net.connectOk addr = true →
        net.readResp addr (CAPABILITY_PROBE ++ crlf) = none →
        WhoisColorProtocol.probe_capabilities net addr =
          Except.ok ServerCapabilities.default)
    ∧ (∀ caps, WhoisColorProtocol.probe_capabilities net addr = Except.ok caps →
        WhoisQuery.probed_capabilities_used net addr = caps) := by
  refine ⟨?_, ?_, ?_, ?_⟩
  · intro h
    constructor
    · simp [WhoisColorProtocol.probe_capabilities, h]
    · simp [WhoisQuery.probed_capabilities_used,
        WhoisColorProtocol.probe_capabilities, h]
  · intro h hw
    simp [WhoisColorProtocol.probe_capabilities, h, hw]
  · intro h hr
    cases hw : net.writeOk addr (CAPABILITY_PROBE ++ crlf) with
    | false => simp [WhoisColorProtocol.probe_capabilities, h, hw]
    | true => simp [WhoisColorProtocol.probe_capabilities, h, hw, hr]
  · intro caps h
    simp [WhoisQuery.probed_capabilities_used, h]

/-- Witness for the amended C1: with every connection failing, the
capabilities actually used by the enhanced-protocol query step are the
default no-support ones. -/
theorem probe_capabilities_failure_semantics_witness :
    WhoisQuery.probed_capabilities_used netDown "whois.ripe.net:43" =
      ServerCapabilities.default :=
  ((probe_capabilities_failure_semantics netDown "whois.ripe.net:43").1 rfl).2

/-- C3: when the initial server is IANA, the resolver queries IANA with the
raw target, resolves the delegated host from the `whois:`/`refer:` scan of
the response (defaulting to `whois.ripe.net`), re-queries that host on the
originally requested port, and `server_used` is the resolved server (name
`Custom`, never `IANA`); when the initial server is not IANA a single
direct query is issued and `server_used` is that server. -/
theorem query_with_referral_spec :
    (∀ net q initial, initial.name = "IANA" →
      ∀ r, WhoisQuery.query_with_referral net q initial = Except.ok r →
        ∃ iana_resp, WhoisQuery.query_direct net q initial = Except.ok iana_resp
          ∧ r.server_used = WhoisServer.custom
              ((ServerSelector.extract_whois_server iana_resp).getD
                DEFAULT_WHOIS_SERVER) initial.port
          ∧ r.server_used.name = "Custom"
          ∧ r.server_used.name ≠ "IANA"
          ∧ r.server_used.port = initial.port
          ∧ WhoisQuery.query_direct net q r.server_used = Except.ok r.response)
    ∧ (∀ net q initial, initial.name ≠ "IANA" →
        WhoisQuery.query_with_referral net q initial =
          (WhoisQuery.query_direct net q initial).map
            (fun resp => QueryResult.new resp initial))
    ∧ (∀ net q initial r, initial.name ≠ "IANA" →
        WhoisQuery.query_with_referral net q initial = Except.ok r →
        r.server_used = initial)
    ∧ ServerSelector.extract_whois_server
        "domain: x\nwhois:   whois.example.net\nrefer: y" = some "whois.example.net"
    ∧ ServerSelector.extract_whois_server "refer: whois.example.org" =
        some "whois.example.org"
    ∧ (∀ resp, (∀ l ∈ rustLines resp,
          strStartsWith (strTrim l) "whois:" = false ∧
          strStartsWith (strTrim l) "refer:" = false) →
        ServerSelector.extract_whois_server resp = none) := by
  have hdirect : ∀ net q initial, initial.name ≠ "IANA" →
      WhoisQuery.query_with_referral net q initial =
        (WhoisQuery.query_direct net q initial).map
          (fun resp => QueryResult.new resp initial) := by
    intro net q initial hI
    rw [WhoisQuery.query_with_referral, if_neg hI]
    cases hq : WhoisQuery.query_direct net q initial <;> simp [hq, Except.map]
  have hnone : ∀ ls : List String, (∀ l ∈ ls,
      strStartsWith (strTrim l) "whois:" = false ∧
      strStartsWith (strTrim l) "refer:" = false) →
      ServerSelector.extract_whois_server_lines ls = none := by
    intro ls h
    induction ls with
    | nil => rfl
    | cons x xs ih =>
      have hx := h x (by simp)
      simp only [ServerSelector.extract_whois_server_lines, hx.1, hx.2]
      simp only [Bool.false_eq_true, if_false]
      exact ih (fun l hl => h l (by simp [hl]))
  refine ⟨?_, hdirect, ?_, by decide, by decide, ?_⟩
  · intro net q initial hI r hr
    rw [WhoisQuery.query_with_referral, if_pos hI] at hr
    cases hq : WhoisQuery.query_direct net q initial with
    | error e =>
      rw [hq] at hr
      simp at hr
    | ok ir =>
      simp only [hq] at hr
      cases hq2 : WhoisQuery.query_direct net q
          (WhoisServer.custom
            ((ServerSelector.extract_whois_server ir).getD DEFAULT_WHOIS_SERVER)
            initial.port) with
      | error e =>
        simp only [hq2] at hr
        simp at hr
      | ok fr =>
        simp only [hq2] at hr
        simp only [Except.ok.injEq] at hr
        subst hr
        exact ⟨ir, rfl, rfl, rfl, (by decide : ("Custom" : String) ≠ "IANA"), rfl, hq2⟩
  · intro net q initial r hI hr
    rw [hdirect net q initial hI] at hr
    cases hq : WhoisQuery.query_direct net q initial with
    | error e =>
      rw [hq] at hr
      simp [Except.map] at hr
    | ok resp =>
      rw [hq] at hr
      simp only [Except.map, Except.ok.injEq] at hr
      subst hr
      rfl
  · intro resp h
    exact hnone (rustLines resp) h

/-- Witness for C3: on a network where IANA refers to `whois.example.net`,
the resolved server used for the answer has name `Custom` and host
`whois.example.net` on the original port 43. -/
theorem query_with_referral_spec_witness :
    WhoisQuery.query_direct netReferral "example.com" WhoisServer.iana =
      Except.ok "whois:   whois.example.net\n"
    ∧ ({ response := "domain:         example.com\ndescr:          Example Domain\nsource:         RIPE"
         server_used := WhoisServer.custom "whois.example.net" 43
         server_colored := false } : QueryResult).server_used.name = "Custom" := by
  obtain ⟨ir, h1, h2, h3, h4, h5, h6⟩ :=
    query_with_referral_spec.1 netReferral "example.com" WhoisServer.iana rfl
      { response := "domain:         example.com\ndescr:          Example Domain\nsource:         RIPE"
        server_used := WhoisServer.custom "whois.example.net" 43
        server_colored := false } rfl
  have hir : ir = "whois:   whois.example.net\n" := by
    have h7 := h1
    rw [show WhoisQuery.query_direct netReferral "example.com" WhoisServer.iana =
      Except.ok "whois:   whois.example.net\n" from rfl] at h7
    simpa using h7.symm
  exact ⟨hir ▸ h1, h3⟩

/-- C9: if the scan of a referral response reaches a line whose trimmed
form starts with `whois:` or `refer:` but has no second whitespace token,
the whole scan aborts with `none` without looking at later lines, and the
resolver then falls back to the default regional registry host. -/
theorem extract_whois_server_first_line_abort :
    (∀ l rest,
      (strStartsWith (strTrim l) "whois:" = true ∨
        strStartsWith (strTrim l) "refer:" = true) →
      (splitWS (strTrim l)).get? 1 = none →
      ServerSelector.extract_whois_server_lines (l :: rest) = none)
    ∧ ServerSelector.extract_whois_server "whois:\nwhois: whois.example.com\n" = none
    ∧ (∀ net q srv r ir, srv.name = "IANA" →
        WhoisQuery.query_with_referral net q srv = Except.ok r →
        WhoisQuery.query_direct net q srv = Except.ok ir →
        ServerSelector.extract_whois_server ir = none →
        r.server_used.host = DEFAULT_WHOIS_SERVER) := by
  refine ⟨?_, by decide, ?_⟩
  · intro l rest h hget
    cases hw : strStartsWith (strTrim l) "whois:" with
    | true =>
      simp only [ServerSelector.extract_whois_server_lines, hw, if_true, hget]
      rfl
    | false =>
      have hrf : strStartsWith (strTrim l) "refer:" = true := by
        rcases h with h | h
        · rw [h] at hw
          cases hw
        · exact h
      simp only [ServerSelector.extract_whois_server_lines, hw, hrf,
        Bool.false_eq_true, if_false, if_true, hget]
      rfl
  · intro net q srv r ir hI hr hqd hex
    rw [WhoisQuery.query_with_referral, if_pos hI] at hr
    simp only [hqd] at hr
    rw [hex] at hr
    cases hq2 : WhoisQuery.query_direct net q
        (WhoisServer.custom (Option.getD none DEFAULT_WHOIS_SERVER) srv.port) with
    | error e =>
      rw [hq2] at hr
      simp at hr
    | ok fr =>
      rw [hq2] at hr
      simp only [Except.ok.injEq] at hr
      subst hr
      rfl

/-- Witness for C9: a first line `whois:` with no value makes the scan
return `none` even though the next line carries a valid `whois:` value. -/
theorem extract_whois_server_first_line_abort_witness :
    ServerSelector.extract_whois_server_lines
      ["whois:", "whois: whois.example.com"] = none :=
  extract_whois_server_first_line_abort.1 "whois:" ["whois: whois.example.com"]
    (Or.inl (by decide)) (by decide)

/-- C10: results of the non-enhanced paths (`query_with_referral` and the
plain `query`, its RADB fallback branch included) always carry
`server_colored = false`; on the enhanced path `server_colored` records
exactly whether the response contains the ANSI escape introducer or the
`X-WHOIS-COLOR-APPLIED:` marker. -/
theorem server_colored_spec :
    (∀ net q s r, WhoisQuery.query_with_referral net q s = Except.ok r →
      r.server_colored = false)
    ∧ (∀ net env domain d b e p r,
        WhoisQuery.query net env domain d b e p = Except.ok r →
        r.server_colored = false)
    ∧ (∀ net domain server scheme md img r,
        WhoisQuery.try_enhanced_protocol_query net domain server scheme md img =
          Except.ok r →
        r.server_colored = (containsStr r.response "\x1b[" ||
          containsStr r.response "X-WHOIS-COLOR-APPLIED:")) := by
  have href : ∀ net q s r, WhoisQuery.query_with_referral net q s = Except.ok r →
      r.server_colored = false := by
    intro net q s r hr
    rw [WhoisQuery.query_with_referral] at hr
    by_cases hI : s.name = "IANA"
    · rw [if_pos hI] at hr
      cases hq : WhoisQuery.query_direct net q s with
      | error e =>
        rw [hq] at hr
        simp at hr
      | ok ir =>
        simp only [hq] at hr
        cases hq2 : WhoisQuery.query_direct net q
            (WhoisServer.custom
              ((ServerSelector.extract_whois_server ir).getD DEFAULT_WHOIS_SERVER)
              s.port) with
        | error e =>
          simp only [hq2] at hr
          simp at hr
        | ok fr =>
          simp only [hq2, Except.ok.injEq] at hr
          subst hr
          rfl
    · rw [if_neg hI] at hr
      cases hq : WhoisQuery.query_direct net q s with
      | error e =>
        rw [hq] at hr
        simp at hr
      | ok resp =>
        simp only [hq, Except.ok.injEq] at hr
        subst hr
        rfl
  refine ⟨href, ?_, ?_⟩
  · intro net env domain d b e p r hr
    simp only [WhoisQuery.query] at hr
    cases hq : WhoisQuery.query_with_referral net domain
        (ServerSelector.select_server env domain d b e p) with
    | error er =>
      rw [hq] at hr
      simp at hr
    | ok res =>
      simp only [hq] at hr
      by_cases hcond : (is_empty_result res.response && !d && !b && e.isNone &&
          ((ServerSelector.select_server env domain d b e p).name != "RADB")) = true
      · rw [if_pos hcond] at hr
        have hr2 : (match WhoisQuery.query_direct net domain WhoisServer.radb with
          | Except.error e => (Except.error e : Except Unit QueryResult)
          | Except.ok response => Except.ok (QueryResult.new response WhoisServer.radb))
            = Except.ok r := hr
        cases hq2 : WhoisQuery.query_direct net domain WhoisServer.radb with
        | error e2 =>
          rw [hq2] at hr2
          simp at hr2
        | ok resp2 =>
          simp only [hq2, Except.ok.injEq] at hr2
          subst hr2
          rfl
      · rw [if_neg hcond] at hr
        simp only [Except.ok.injEq] at hr
        subst hr
        exact href net domain _ res hq
  · intro net domain server scheme md img r hr
    simp only [WhoisQuery.try_enhanced_protocol_query] at hr
    cases hqe : WhoisColorProtocol.query_enhanced net server.address domain
        (WhoisQuery.probed_capabilities_used net server.address) scheme md img with
    | error e =>
      rw [hqe] at hr
      simp at hr
    | ok resp =>
      simp only [hqe, Except.ok.injEq] at hr
      subst hr
      rfl

/-- Witness for C10: the plain pipeline on the referral network produces a
result with `server_colored = false`. -/
theorem server_colored_spec_witness :
    ({ response := "domain:         example.com\ndescr:          Example Domain\nsource:         RIPE"
       server_used := WhoisServer.custom "whois.example.net" 43
       server_colored := false } : QueryResult).server_colored = false :=
  server_colored_spec.2.1 netReferral none "example.com" false false none 43
    { response := "domain:         example.com\ndescr:          Example Domain\nsource:         RIPE"
      server_used := WhoisServer.custom "whois.example.net" 43
      server_colored := false } rfl

/-- C2: when the first full pipeline run of
`query_with_enhanced_protocol` returns an empty-classified result, no
special-mode flag or explicit server was given and the selected server is
not RADB, the whole call equals one `try_radb_fallback` run with the same
color/markdown/image preferences, whose result is returned even if it is
itself empty (no second hop); in every other case the first result is
returned unchanged. -/
theorem radb_fallback_rule (net : Net) (env : Option String) (domain : String)
    (use_dn42 use_bgptools use_server_color enable_markdown enable_images : Bool)
    (explicit_server : Option String) (port : Nat)
    (preferred_color_scheme : Option String) (r : QueryResult) :
    (if use_server_color || enable_markdown || enable_images then
        WhoisQuery.query_with_enhanced_protocol_impl net domain
          (ServerSelector.select_server env domain use_dn42 use_bgptools
            explicit_server port)
          preferred_color_scheme enable_markdown enable_images
      else
        WhoisQuery.query_with_referral net domain
          (ServerSelector.select_server env domain use_dn42 use_bgptools
            explicit_server port)) = Except.ok r →
    ((is_empty_result r.response = true ∧ use_dn42 = false ∧ use_bgptools = false ∧
        explicit_server = none ∧
        (ServerSelector.select_server env domain use_dn42 use_bgptools
          explicit_server port).name ≠ "RADB") →
      WhoisQuery.query_with_enhanced_protocol net env domain use_dn42 use_bgptools
          use_server_color enable_markdown enable_images explicit_server port
          preferred_color_scheme =
        WhoisQuery.try_radb_fallback net domain use_server_color enable_markdown
          enable_images preferred_color_scheme
      ∧ ∀ r2, WhoisQuery.try_radb_fallback net domain use_server_color
            enable_markdown enable_images preferred_color_scheme = Except.ok r2 →
          WhoisQuery.query_with_enhanced_protocol net env domain use_dn42
            use_bgptools use_server_color enable_markdown enable_images
            explicit_server port preferred_color_scheme = Except.ok r2)
    ∧ (¬(is_empty_result r.response = true ∧ use_dn42 = false ∧
          use_bgptools = false ∧ explicit_server = none ∧
          (ServerSelector.select_server env domain use_dn42 use_bgptools
            explicit_server port).name ≠ "RADB") →
        WhoisQuery.query_with_enhanced_protocol net env domain use_dn42
          use_bgptools use_server_color enable_markdown enable_images
          explicit_server port preferred_color_scheme = Except.ok r) := by
  intro hfirst
  constructor
  · intro hcond
    obtain ⟨h1, h2, h3, h4, h5⟩ := hcond
    subst h2
    subst h3
    subst h4
    have hbool : (is_empty_result r.response && !false && !false &&
        (none : Option String).isNone &&
        ((ServerSelector.select_server env domain false false
          none port).name != "RADB")) = true := by
      simp [h1, h5]
    constructor
    · simp only [WhoisQuery.query_with_enhanced_protocol]
      rw [hfirst]
      simp only [hbool, if_true]
    · intro r2 hr2
      simp only [WhoisQuery.query_with_enhanced_protocol]
      rw [hfirst]
      simp only [hbool, if_true]
      exact hr2
  · intro hncond
    have hbool : (is_empty_result r.response && !use_dn42 && !use_bgptools &&
        explicit_server.isNone &&
        ((ServerSelector.select_server env domain use_dn42 use_bgptools
          explicit_server port).name != "RADB")) = false := by
      rw [Bool.eq_false_iff]
      intro hx
      apply hncond
      simp only [Bool.and_eq_true, Bool.not_eq_true',
        Option.isNone_iff_eq_none, bne_iff_ne] at hx
      obtain ⟨⟨⟨⟨ha, hb⟩, hc⟩, hd⟩, he⟩ := hx
      exact ⟨ha, hb, hc, hd, he⟩
    simp only [WhoisQuery.query_with_enhanced_protocol]
    rw [hfirst]
    simp only [hbool, Bool.false_eq_true, if_false]

/-- Witness for C2: on the fallback network the RIR answer `No match for
domain.` triggers exactly one RADB run whose record is the final result. -/
theorem radb_fallback_rule_witness :
    WhoisQuery.query_with_enhanced_protocol netFallback none "193.0.0.0/21"
      false false false false false none 43 none =
    Except.ok
      { response := "route:          193.0.0.0/21\norigin:         AS3333\nsource:         RADB"
        server_used := WhoisServer.radb
        server_colored := false } := by
  have h := (radb_fallback_rule netFallback none "193.0.0.0/21" false false false
    false false none 43 none
    { response := "No match for domain."
      server_used := WhoisServer.custom "whois.nic.x" 43
      server_colored := false } rfl).1
    ⟨by decide, rfl, rfl, rfl, by decide⟩
  exact h.2 _ rfl

end Whois
